import Mathlib

/-!
K8s-client-go-usage: the operations of `main.go` over an explicit control plane

`main.go` is a client of the Kubernetes API.  Every function of the file builds a
clientset (`k8sConfig`), issues requests to the control plane, prints with
`fmt.Printf` and terminates the process with `log.Fatal` on any error.

The embedding makes the three effects explicit:

* the control plane is a record of response functions over a cluster state `σ`
  (`ControlPlane σ`), so that every statement holds for every behaviour of the API;
* a `World σ` carries the cluster state, the requests issued so far and the
  `fmt.Printf` calls made so far;
* a Go function `f()` becomes `f cp w : Except Halt α × World σ`, where
  `Except.error (Halt.fatal err)` is `log.Fatal(err)` and
  `Except.error (Halt.panic p)` is a run-time panic.
-/

set_option linter.dupNamespace false

namespace K8sClient

/-! ## Data model (the fields of the Kubernetes API types that `main.go` touches) -/

/-- Go `map[string]string`, as an association list. -/
abbrev LabelMap := List (String × String)

/-- The fields of `metav1.ObjectMeta` used by the program. -/
structure ObjectMeta where
  Name : String
  Namespace : String
  Labels : LabelMap
deriving DecidableEq, Repr

/-- The transport protocol `corev1.Protocol`. -/
inductive Protocol where
  | ProtocolTCP
  | ProtocolUDP
  | ProtocolSCTP
deriving DecidableEq, Repr

/-- The pull policy `corev1.PullPolicy`. -/
inductive PullPolicy where
  | PullAlways
  | PullNever
  | PullIfNotPresent
deriving DecidableEq, Repr

/-- The exposure type `corev1.ServiceType`. -/
inductive ServiceType where
  | ServiceTypeClusterIP
  | ServiceTypeNodePort
  | ServiceTypeLoadBalancer
  | ServiceTypeExternalName
deriving DecidableEq, Repr

/-- The type `corev1.ContainerPort`; `ContainerPort` is an `int32`. -/
structure ContainerPort where
  Name : String
  ContainerPort : Int
  Protocol : Protocol
deriving DecidableEq, Repr

/-- The type `corev1.Container`. -/
structure Container where
  Name : String
  Image : String
  ImagePullPolicy : PullPolicy
  Ports : List ContainerPort
deriving DecidableEq, Repr

/-- The type `corev1.PodSpec`. -/
structure PodSpec where
  Containers : List Container
deriving DecidableEq, Repr

/-- The type `corev1.PodTemplateSpec` (it embeds `ObjectMeta`). -/
structure PodTemplateSpec extends ObjectMeta where
  Spec : PodSpec
deriving DecidableEq, Repr

/-- The type `metav1.LabelSelector`. -/
structure LabelSelector where
  MatchLabels : LabelMap
deriving DecidableEq, Repr

/-- The type `appsv1.DeploymentSpec`: `Replicas` is a `*int32` and `Selector` a
`*metav1.LabelSelector`, both may be nil. -/
structure DeploymentSpec where
  Replicas : Option Int
  Selector : Option LabelSelector
  Template : PodTemplateSpec
deriving DecidableEq, Repr

/-- The type `appsv1.DeploymentStatus` (only printed by the program). -/
structure DeploymentStatus where
  Replicas : Int
  ReadyReplicas : Int
  AvailableReplicas : Int
deriving DecidableEq, Repr

/-- The type `appsv1.Deployment` (it embeds `ObjectMeta`). -/
structure Deployment extends ObjectMeta where
  Spec : DeploymentSpec
  Status : DeploymentStatus
deriving DecidableEq, Repr

/-- The type `corev1.Namespace` (it embeds `ObjectMeta`). -/
structure Namespace extends ObjectMeta where
deriving DecidableEq, Repr

/-- The type `corev1.ServicePort`; `Port` and `NodePort` are `int32`. -/
structure ServicePort where
  Name : String
  Port : Int
  Protocol : Protocol
  NodePort : Int
deriving DecidableEq, Repr

/-- The type `corev1.ServiceSpec`. -/
structure ServiceSpec where
  Selector : LabelMap
  Type_ : ServiceType
  Ports : List ServicePort
deriving DecidableEq, Repr

/-- The type `corev1.Service` (it embeds `ObjectMeta`). -/
structure Service extends ObjectMeta where
  Spec : ServiceSpec
deriving DecidableEq, Repr

/-! ## Errors, panics and effects -/

/-- A Go `error` value returned by the client library. -/
inductive Err where
  | NotFound (resource ns name : String)
  | AlreadyExists (resource ns name : String)
  | BadRequest (msg : String)
  | Other (msg : String)
deriving DecidableEq, Repr

/-- A Go run-time panic. -/
inductive Panic where
  | indexOutOfRange (index length : Nat)
  | nilDereference
deriving DecidableEq, Repr

/-- Abnormal termination of the process: `log.Fatal(err)` or a panic. -/
inductive Halt where
  | fatal (err : Err)
  | panic (p : Panic)
deriving DecidableEq, Repr

/-- A request sent to the control plane. -/
inductive Call where
  | NamespacesList
  | DeploymentsList (ns : String)
  | DeploymentsGet (ns name : String)
  | DeploymentsCreate (ns : String) (deployment : Deployment)
  | DeploymentsUpdate (ns : String) (deployment : Deployment)
  | ServicesCreate (ns : String) (svc : Service)
deriving DecidableEq, Repr

/-- An argument of a `fmt.Printf` call. -/
inductive Arg where
  | str (s : String)
  | int (i : Int)
  | status (s : DeploymentStatus)
deriving DecidableEq, Repr

/-- One `fmt.Printf(format, args...)` call. -/
structure Printf where
  format : String
  args : List Arg
deriving DecidableEq, Repr

/-- The value `*rest.Config` built from the kubeconfig file. -/
structure RestConfig where
  Host : String
deriving DecidableEq, Repr

/-- The value `*kubernetes.Clientset`. -/
structure Clientset where
  config : RestConfig
deriving DecidableEq, Repr

/-- The external collaborators of the program: the kubeconfig loader, the clientset
constructor and the responses of the control plane in a cluster state `σ`.  Reads
answer from the state; writes answer and give the next state. -/
structure ControlPlane (σ : Type) where
  BuildConfigFromFlags : String → String → Except Err RestConfig
  NewForConfig : RestConfig → Except Err Clientset
  NamespacesList : Clientset → σ → Except Err (List Namespace)
  DeploymentsList : Clientset → σ → String → Except Err (List Deployment)
  DeploymentsGet : Clientset → σ → String → String → Except Err Deployment
  DeploymentsCreate : Clientset → σ → String → Deployment → Except Err Deployment × σ
  DeploymentsUpdate : Clientset → σ → String → Deployment → Except Err Deployment × σ
  ServicesCreate : Clientset → σ → String → Service → Except Err Service × σ

/-- The observable world: cluster state, requests issued (oldest first) and the
`fmt.Printf` calls made (oldest first). -/
structure World (σ : Type) where
  cluster : σ
  calls : List Call
  stdout : List Printf

/-- Append a request to the trace. -/
def World.request {σ : Type} (w : World σ) (c : Call) : World σ :=
  { w with calls := w.calls ++ [c] }

/-- Append a `fmt.Printf` call to the output. -/
def World.printf {σ : Type} (w : World σ) (format : String) (args : List Arg) : World σ :=
  { w with stdout := w.stdout ++ [⟨format, args⟩] }

/-- Replace the cluster state. -/
def World.setCluster {σ : Type} (w : World σ) (c : σ) : World σ :=
  { w with cluster := c }

/-! ## 32-bit integers -/

/-- The range of Go `int32`. -/
def isInt32 (x : Int) : Prop := -2147483648 ≤ x ∧ x ≤ 2147483647

instance (x : Int) : Decidable (isInt32 x) := by
  unfold isInt32; infer_instance

/-- Two's-complement wrap-around of an exact integer into `int32`. -/
def wrapInt32 (x : Int) : Int := (x + 2147483648) % 4294967296 - 2147483648

/-! ## The functions of `main.go` -/

/-- Function `k8sConfig` (main.go 16-28): both failures end in `log.Fatal`. -/
def k8sConfig {σ : Type} (cp : ControlPlane σ) : Except Halt Clientset :=
  let kubeconfig := "etc/config"
  match cp.BuildConfigFromFlags "" kubeconfig with
  | .error err => .error (.fatal err)
  | .ok config =>
    match cp.NewForConfig config with
    | .error err => .error (.fatal err)
    | .ok clientSet => .ok clientSet

/-- Function `GetNamespace` (main.go 31-44): one listing, then the names are appended one by
one to an initially empty slice. -/
def GetNamespace {σ : Type} (cp : ControlPlane σ) (w : World σ) :
    Except Halt (List String) × World σ :=
  match k8sConfig cp with
  | .error h => (.error h, w)
  | .ok clientSet =>
    let w1 := w.request .NamespacesList
    match cp.NamespacesList clientSet w.cluster with
    | .error err => (.error (.fatal err), w1)
    | .ok items =>
      (.ok (items.foldl (fun namesapces ns => namesapces ++ [ns.Name]) []), w1)

/-- The body of the `for ... range GetNamespace()` loop of `GetDeployment`
(main.go 48-58), over the namespaces still to visit. -/
def GetDeployment.loop {σ : Type} (cp : ControlPlane σ) :
    List String → World σ → Except Halt Unit × World σ
  | [], w => (.ok (), w)
  | namespaces :: rest, w =>
    match k8sConfig cp with
    | .error h => (.error h, w)
    | .ok clientSet =>
      let w1 := w.request (.DeploymentsList namespaces)
      match cp.DeploymentsList clientSet w.cluster namespaces with
      | .error err => (.error (.fatal err), w1)
      | .ok items =>
        GetDeployment.loop cp rest
          (items.foldl
            (fun w2 deployment =>
              w2.printf "namespace:%s name:%s\n"
                [.str deployment.Namespace, .str deployment.Name])
            w1)

/-- Function `GetDeployment` (main.go 47-59). -/
def GetDeployment {σ : Type} (cp : ControlPlane σ) (w : World σ) :
    Except Halt Unit × World σ :=
  match GetNamespace cp w with
  | (.error h, w1) => (.error h, w1)
  | (.ok names, w1) => GetDeployment.loop cp names w1

/-- Function `Int32ptr` (main.go 62-64): a pointer to a copy of `i`. -/
def Int32ptr (i : Int) : Option Int := some i

/-- The deployment literal of `CreateDeployment` (main.go 72-111). -/
def CreateDeployment.object : Deployment :=
  { Name := "test-golang"
    Namespace := "web"
    Labels := [("app", "test-golang")]
    Spec :=
      { Replicas := Int32ptr 2
        Selector := some { MatchLabels := [("app", "test-golang")] }
        Template :=
          { Name := ""
            Namespace := ""
            Labels := [("app", "test-golang")]
            Spec :=
              { Containers :=
                  [{ Name := "test"
                     Image := "nginx:1.16.1"
                     ImagePullPolicy := .PullIfNotPresent
                     Ports :=
                       [{ Name := "http"
                          ContainerPort := 80
                          Protocol := .ProtocolTCP }] }] } } }
    Status := { Replicas := 0, ReadyReplicas := 0, AvailableReplicas := 0 } }

/-- Function `CreateDeployment` (main.go 67-119). -/
def CreateDeployment {σ : Type} (cp : ControlPlane σ) (w : World σ) :
    Except Halt Unit × World σ :=
  match k8sConfig cp with
  | .error h => (.error h, w)
  | .ok clientSet =>
    let w1 := w.request (.DeploymentsCreate "web" CreateDeployment.object)
    match cp.DeploymentsCreate clientSet w.cluster "web" CreateDeployment.object with
    | (.error err, c) => (.error (.fatal err), w1.setCluster c)
    | (.ok deployment, c) =>
      (.ok (), (w1.setCluster c).printf "deployment Create success!\n%v\n"
        [.status deployment.Status])

/-- The replica arithmetic of `EditDeployment` (main.go 140-144) on the current
count `*deployment.Spec.Replicas`, with `int32` wrap-around. -/
def EditDeployment.replicas (current : Int) : Int :=
  if current > 2 then wrapInt32 (current - 1) else wrapInt32 (current + 1)

/-- Function `EditDeployment` (main.go 133-153). -/
def EditDeployment {σ : Type} (cp : ControlPlane σ) (w : World σ) :
    Except Halt Unit × World σ :=
  match k8sConfig cp with
  | .error h => (.error h, w)
  | .ok clientSet =>
    let w1 := w.request (.DeploymentsGet "web" "test-golang")
    match cp.DeploymentsGet clientSet w.cluster "web" "test-golang" with
    | .error err => (.error (.fatal err), w1)
    | .ok deployment =>
      match deployment.Spec.Replicas with
      | none => (.error (.panic .nilDereference), w1)
      | some current =>
        let deployment : Deployment :=
          { deployment with
            Spec := { deployment.Spec with
                      Replicas := Int32ptr (EditDeployment.replicas current) } }
        let w2 := w1.request (.DeploymentsUpdate "web" deployment)
        match cp.DeploymentsUpdate clientSet w1.cluster "web" deployment with
        | (.error err, c) => (.error (.fatal err), w2.setCluster c)
        | (.ok deployment, c) =>
          match deployment.Spec.Replicas with
          | none => (.error (.panic .nilDereference), w2.setCluster c)
          | some replicas =>
            (.ok (), (w2.setCluster c).printf
              "deployment : %s ,replocas=%d update success!\n"
              [.str deployment.Name, .int replicas])

/-- Function `EditImage` (main.go 156-172): the assignment to `Containers[0].Image` panics on
an empty slice. -/
def EditImage {σ : Type} (cp : ControlPlane σ) (w : World σ) :
    Except Halt Unit × World σ :=
  match k8sConfig cp with
  | .error h => (.error h, w)
  | .ok clientSet =>
    let w1 := w.request (.DeploymentsGet "web" "test-golang")
    match cp.DeploymentsGet clientSet w.cluster "web" "test-golang" with
    | .error err => (.error (.fatal err), w1)
    | .ok deployment =>
      match deployment.Spec.Template.Spec.Containers with
      | [] => (.error (.panic (.indexOutOfRange 0 0)), w1)
      | container :: others =>
        let deployment : Deployment :=
          { deployment with
            Spec := { deployment.Spec with
                      Template := { deployment.Spec.Template with
                                    Spec := { deployment.Spec.Template.Spec with
                                              Containers :=
                                                { container with Image := "nginx:1.18.0" }
                                                  :: others } } } }
        let w2 := w1.request (.DeploymentsUpdate "web" deployment)
        match cp.DeploymentsUpdate clientSet w1.cluster "web" deployment with
        | (.error err, c) => (.error (.fatal err), w2.setCluster c)
        | (.ok deployment, c) =>
          (.ok (), (w2.setCluster c).printf "deployment : %s image update success!\n"
            [.str deployment.Name])

/-- The service literal of `CreateSvc` (main.go 198-216). -/
def CreateSvc.object : Service :=
  { Name := "go-nginx-svc"
    Namespace := "web"
    Labels := [("svc", "go-nginx")]
    Spec :=
      { Selector := [("app", "test-golang")]
        Type_ := .ServiceTypeNodePort
        Ports :=
          [{ Name := "http"
             Port := 80
             Protocol := .ProtocolTCP
             NodePort := 6110 }] } }

/-- Function `CreateSvc` (main.go 196-224). -/
def CreateSvc {σ : Type} (cp : ControlPlane σ) (w : World σ) :
    Except Halt Unit × World σ :=
  match k8sConfig cp with
  | .error h => (.error h, w)
  | .ok clientSet =>
    let w1 := w.request (.ServicesCreate "web" CreateSvc.object)
    match cp.ServicesCreate clientSet w.cluster "web" CreateSvc.object with
    | (.error err, c) => (.error (.fatal err), w1.setCluster c)
    | (.ok svc, c) =>
      (.ok (), (w1.setCluster c).printf "svc: %s create success!\n" [.str svc.Name])

/-! ## Sequencing and the store model of the control plane -/

/-- Run `EditDeployment` `n` times in a row, each run on the world the previous one
left; a run that halts ends the sequence. -/
def EditDeployment.times {σ : Type} (cp : ControlPlane σ) :
    Nat → World σ → Except Halt Unit × World σ
  | 0, w => (.ok (), w)
  | n + 1, w =>
    match EditDeployment.times cp n w with
    | (.error h, w1) => (.error h, w1)
    | (.ok _, w1) => EditDeployment cp w1

/-- Call `f` and then `g`, as two consecutive statements of a `main`: a first call
that halts the process ends the run. -/
def andThen {σ : Type} (f g : World σ → Except Halt Unit × World σ) (w : World σ) :
    Except Halt Unit × World σ :=
  match f w with
  | (.error h, w1) => (.error h, w1)
  | (.ok _, w1) => g w1

/-- The `fmt.Printf` call of `GetDeployment` for one listed deployment. -/
def GetDeployment.entry (deployment : Deployment) : Printf :=
  ⟨"namespace:%s name:%s\n", [.str deployment.Namespace, .str deployment.Name]⟩

/-- Modelled from the spec: the control plane as a store keyed by (namespace, name),
holding the namespaces, the workloads and the exposure resources. -/
structure Store where
  namespaces : List Namespace
  deployments : List Deployment
  services : List Service
deriving DecidableEq, Repr

/-- Modelled from the spec: the stored workload identified by (namespace, name). -/
def Store.findDeployment (s : Store) (ns name : String) : Option Deployment :=
  s.deployments.find? (fun d => decide (d.Namespace = ns ∧ d.Name = name))

/-- Modelled from the spec: the stored exposure resource identified by
(namespace, name). -/
def Store.findService (s : Store) (ns name : String) : Option Service :=
  s.services.find? (fun x => decide (x.Namespace = ns ∧ x.Name = name))

/-- Modelled from the spec: overwrite the entry stored under (namespace, name). -/
def Store.replace (ns name : String) (new : Deployment) : List Deployment → List Deployment
  | [] => []
  | d :: ds =>
    if d.Namespace = ns ∧ d.Name = name then new :: ds
    else d :: Store.replace ns name new ds

/-- Modelled from the spec: the control plane over a `Store`.  Loading the
configuration succeeds; a get or update of an absent (namespace, name) fails
with `NotFound`; a create of a present (namespace, name) fails with `AlreadyExists`;
an object whose namespace is not the one of the request is refused; a failed write
leaves the store as it was. -/
def storePlane : ControlPlane Store where
  BuildConfigFromFlags := fun _ _ => .ok { Host := "https://127.0.0.1:6443" }
  NewForConfig := fun config => .ok { config := config }
  NamespacesList := fun _ s => .ok s.namespaces
  DeploymentsList := fun _ s ns =>
    .ok (s.deployments.filter (fun d => decide (d.Namespace = ns)))
  DeploymentsGet := fun _ s ns name =>
    match s.findDeployment ns name with
    | none => .error (.NotFound "deployments" ns name)
    | some d => .ok d
  DeploymentsCreate := fun _ s ns d =>
    if d.Namespace ≠ ns then (.error (.BadRequest "namespace mismatch"), s)
    else
      match s.findDeployment ns d.Name with
      | some _ => (.error (.AlreadyExists "deployments" ns d.Name), s)
      | none => (.ok d, { s with deployments := s.deployments ++ [d] })
  DeploymentsUpdate := fun _ s ns d =>
    if d.Namespace ≠ ns then (.error (.BadRequest "namespace mismatch"), s)
    else
      match s.findDeployment ns d.Name with
      | none => (.error (.NotFound "deployments" ns d.Name), s)
      | some _ =>
        (.ok d, { s with deployments := Store.replace ns d.Name d s.deployments })
  ServicesCreate := fun _ s ns x =>
    if x.Namespace ≠ ns then (.error (.BadRequest "namespace mismatch"), s)
    else
      match s.findService ns x.Name with
      | some _ => (.error (.AlreadyExists "services" ns x.Name), s)
      | none => (.ok x, { s with services := s.services ++ [x] })

/-- The replica count stored for `web/test-golang`, when the workload exists and
its count is set. -/
def Store.replicas (s : Store) : Option Int :=
  (s.findDeployment "web" "test-golang").bind (fun d => d.Spec.Replicas)

/-- The image of container 0 stored for `web/test-golang`. -/
def Store.image (s : Store) : Option String :=
  (s.findDeployment "web" "test-golang").bind
    (fun d => d.Spec.Template.Spec.Containers.head?.map (fun c => c.Image))

/-- A world with cluster state `c`, no request issued and nothing printed. -/
def World.start {σ : Type} (c : σ) : World σ :=
  { cluster := c, calls := [], stdout := [] }

/-- A namespace object with the given name. -/
def Namespace.named (name : String) : Namespace :=
  { Name := name, Namespace := "", Labels := [] }

/-- A store with the namespaces `web` and `kube-system` and no resource. -/
def emptyStore : Store :=
  { namespaces := [Namespace.named "web", Namespace.named "kube-system"]
    deployments := []
    services := [] }

/-- A store holding the demonstration workload `web/test-golang` (2 replicas). -/
def demoStore : Store :=
  { emptyStore with deployments := [CreateDeployment.object] }

/-- The store control plane, except that listing the workloads of `kube-system`
fails. -/
def faultyPlane : ControlPlane Store :=
  { storePlane with
    DeploymentsList := fun clientSet s ns =>
      if ns = "kube-system" then .error (.Other "connection refused")
      else storePlane.DeploymentsList clientSet s ns }

/-! ## Theorems -/

section
variable {σ : Type}

@[simp] theorem World.request_cluster (w : World σ) (c : Call) :
    (w.request c).cluster = w.cluster := rfl

@[simp] theorem World.request_calls (w : World σ) (c : Call) :
    (w.request c).calls = w.calls ++ [c] := rfl

@[simp] theorem World.request_stdout (w : World σ) (c : Call) :
    (w.request c).stdout = w.stdout := rfl

@[simp] theorem World.printf_cluster (w : World σ) (f : String) (a : List Arg) :
    (w.printf f a).cluster = w.cluster := rfl

@[simp] theorem World.printf_calls (w : World σ) (f : String) (a : List Arg) :
    (w.printf f a).calls = w.calls := rfl

@[simp] theorem World.printf_stdout (w : World σ) (f : String) (a : List Arg) :
    (w.printf f a).stdout = w.stdout ++ [⟨f, a⟩] := rfl

@[simp] theorem World.setCluster_cluster (w : World σ) (c : σ) :
    (w.setCluster c).cluster = c := rfl

@[simp] theorem World.setCluster_calls (w : World σ) (c : σ) :
    (w.setCluster c).calls = w.calls := rfl

@[simp] theorem World.setCluster_stdout (w : World σ) (c : σ) :
    (w.setCluster c).stdout = w.stdout := rfl

/-- On an `int32` the replica arithmetic is exact: neither branch wraps. -/
theorem replicas_exact (r : Int) (h : isInt32 r) :
    EditDeployment.replicas r = if r > 2 then r - 1 else r + 1 := by
  unfold isInt32 at h
  unfold EditDeployment.replicas wrapInt32
  split <;> omega

/-- The new count is again an `int32`. -/
theorem replicas_isInt32 (r : Int) (h : isInt32 r) : isInt32 (EditDeployment.replicas r) := by
  rw [replicas_exact r h]
  unfold isInt32 at *
  split <;> omega

/-- The requests of `EditDeployment` when the read succeeds and the count is set. -/
theorem EditDeployment_calls (cp : ControlPlane σ) (w : World σ) (cs : Clientset)
    (d : Deployment) (r : Int) (hcfg : k8sConfig cp = .ok cs)
    (hget : cp.DeploymentsGet cs w.cluster "web" "test-golang" = .ok d)
    (hr : d.Spec.Replicas = some r) :
    (EditDeployment cp w).2.calls =
      w.calls ++ [.DeploymentsGet "web" "test-golang",
        .DeploymentsUpdate "web"
          { d with Spec := { d.Spec with Replicas := some (EditDeployment.replicas r) } }] := by
  simp only [EditDeployment, hcfg, hget, hr, World.request_cluster, Int32ptr]
  rcases hu : cp.DeploymentsUpdate cs w.cluster "web"
      { d with Spec := { d.Spec with Replicas := some (EditDeployment.replicas r) } }
    with ⟨res, c⟩
  cases res with
  | error e => simp
  | ok d2 =>
    cases hd2 : d2.Spec.Replicas <;> simp [hd2]

/-- C10: the replica arithmetic of `EditDeployment` never wraps around in `int32`.
For every `int32` value `r`, the minimum and the maximum included, the value computed
with 32-bit wrap-around equals the exact integer `r - 1` when `r > 2` and the exact
integer `r + 1` otherwise; it is again an `int32`, and a non-negative current count
gives a new count of at least 1. -/
theorem EditDeployment_replicas_never_wraps (r : Int) (h : isInt32 r) :
    EditDeployment.replicas r = (if r > 2 then r - 1 else r + 1) ∧
      isInt32 (EditDeployment.replicas r) ∧
      (0 ≤ r → 1 ≤ EditDeployment.replicas r) := by
  refine ⟨replicas_exact r h, replicas_isInt32 r h, fun h0 => ?_⟩
  rw [replicas_exact r h]
  split <;> omega

/-- Witness of C10 at the largest `int32`. -/
theorem EditDeployment_replicas_never_wraps_witness :
    isInt32 2147483647 ∧
      (EditDeployment.replicas 2147483647 = (if (2147483647 : Int) > 2 then 2147483647 - 1
          else 2147483647 + 1) ∧
        isInt32 (EditDeployment.replicas 2147483647) ∧
        ((0 : Int) ≤ 2147483647 → 1 ≤ EditDeployment.replicas 2147483647)) :=
  ⟨by decide, EditDeployment_replicas_never_wraps 2147483647 (by decide)⟩

/-- C1: when the read of `web/test-golang` gives a workload whose replica count is
the `int32` value `r`, the update that `EditDeployment` submits is the workload read
with its replica count replaced by `r - 1` when `r > 2` and by `r + 1` otherwise; in
particular 3 yields 2, 2 yields 3 and 1 yields 2. -/
theorem EditDeployment_submits_scaled (cp : ControlPlane σ) (w : World σ) (cs : Clientset)
    (d : Deployment) (r : Int) (hcfg : k8sConfig cp = .ok cs)
    (hget : cp.DeploymentsGet cs w.cluster "web" "test-golang" = .ok d)
    (hr : d.Spec.Replicas = some r) (h32 : isInt32 r) :
    (EditDeployment cp w).2.calls =
        w.calls ++ [.DeploymentsGet "web" "test-golang",
          .DeploymentsUpdate "web"
            { d with Spec := { d.Spec with
                               Replicas := some (if r > 2 then r - 1 else r + 1) } }] ∧
      EditDeployment.replicas 3 = 2 ∧ EditDeployment.replicas 2 = 3 ∧
      EditDeployment.replicas 1 = 2 := by
  refine ⟨?_, by decide, by decide, by decide⟩
  rw [EditDeployment_calls cp w cs d r hcfg hget hr, replicas_exact r h32]

/-- Witness of C1: the demonstration workload (2 replicas) in the store model. -/
theorem EditDeployment_submits_scaled_witness :
    (EditDeployment storePlane (World.start demoStore)).2.calls =
        (World.start demoStore).calls ++ [.DeploymentsGet "web" "test-golang",
          .DeploymentsUpdate "web"
            { CreateDeployment.object with
              Spec := { CreateDeployment.object.Spec with
                        Replicas := some (if (2 : Int) > 2 then 2 - 1 else 2 + 1) } }] ∧
      EditDeployment.replicas 3 = 2 ∧ EditDeployment.replicas 2 = 3 ∧
      EditDeployment.replicas 1 = 2 :=
  EditDeployment_submits_scaled storePlane (World.start demoStore)
    { config := { Host := "https://127.0.0.1:6443" } } CreateDeployment.object 2
    rfl rfl rfl (by decide)

/-- C9: when the read of `web/test-golang` fails with `err`, `EditDeployment` and
`EditImage` each end in `log.Fatal(err)`, the only request issued is the read (no
update, no create) and the cluster state is the one they started from. -/
theorem read_failure_is_fatal_without_write (cp : ControlPlane σ) (w : World σ)
    (cs : Clientset) (err : Err) (hcfg : k8sConfig cp = .ok cs)
    (hget : cp.DeploymentsGet cs w.cluster "web" "test-golang" = .error err) :
    ((EditDeployment cp w).1 = .error (.fatal err) ∧
        (EditDeployment cp w).2.calls = w.calls ++ [.DeploymentsGet "web" "test-golang"] ∧
        (EditDeployment cp w).2.cluster = w.cluster ∧
        (EditDeployment cp w).2.stdout = w.stdout) ∧
      ((EditImage cp w).1 = .error (.fatal err) ∧
        (EditImage cp w).2.calls = w.calls ++ [.DeploymentsGet "web" "test-golang"] ∧
        (EditImage cp w).2.cluster = w.cluster ∧
        (EditImage cp w).2.stdout = w.stdout) := by
  simp [EditDeployment, EditImage, hcfg, hget]

/-- Witness of C9: in the store model without the workload the read fails with
`NotFound`. -/
theorem read_failure_is_fatal_without_write_witness :
    storePlane.DeploymentsGet { config := { Host := "https://127.0.0.1:6443" } }
        (World.start emptyStore).cluster "web" "test-golang" =
        .error (.NotFound "deployments" "web" "test-golang") ∧
      (((EditDeployment storePlane (World.start emptyStore)).1 =
            .error (.fatal (.NotFound "deployments" "web" "test-golang")) ∧
          (EditDeployment storePlane (World.start emptyStore)).2.calls =
            (World.start emptyStore).calls ++ [.DeploymentsGet "web" "test-golang"] ∧
          (EditDeployment storePlane (World.start emptyStore)).2.cluster =
            (World.start emptyStore).cluster ∧
          (EditDeployment storePlane (World.start emptyStore)).2.stdout =
            (World.start emptyStore).stdout) ∧
        ((EditImage storePlane (World.start emptyStore)).1 =
            .error (.fatal (.NotFound "deployments" "web" "test-golang")) ∧
          (EditImage storePlane (World.start emptyStore)).2.calls =
            (World.start emptyStore).calls ++ [.DeploymentsGet "web" "test-golang"] ∧
          (EditImage storePlane (World.start emptyStore)).2.cluster =
            (World.start emptyStore).cluster ∧
          (EditImage storePlane (World.start emptyStore)).2.stdout =
            (World.start emptyStore).stdout)) :=
  ⟨rfl, read_failure_is_fatal_without_write storePlane (World.start emptyStore)
    { config := { Host := "https://127.0.0.1:6443" } }
    (.NotFound "deployments" "web" "test-golang") rfl rfl⟩

/-- The requests and the result of `EditImage` when the read succeeds and the pod
template has a container 0. -/
theorem EditImage_calls (cp : ControlPlane σ) (w : World σ) (cs : Clientset)
    (d : Deployment) (c : Container) (others : List Container)
    (hcfg : k8sConfig cp = .ok cs)
    (hget : cp.DeploymentsGet cs w.cluster "web" "test-golang" = .ok d)
    (hc : d.Spec.Template.Spec.Containers = c :: others) :
    (EditImage cp w).2.calls =
        w.calls ++ [.DeploymentsGet "web" "test-golang",
          .DeploymentsUpdate "web"
            { d with
              Spec := { d.Spec with
                        Template := { d.Spec.Template with
                                      Spec := { d.Spec.Template.Spec with
                                                Containers :=
                                                  { c with Image := "nginx:1.18.0" }
                                                    :: others } } } }] ∧
      ∀ p, (EditImage cp w).1 ≠ .error (.panic p) := by
  simp only [EditImage, hcfg, hget, World.request_cluster]
  rw [hc]
  simp only
  rcases hu : cp.DeploymentsUpdate cs w.cluster "web"
      { d with
        Spec := { d.Spec with
                  Template := { d.Spec.Template with
                                Spec := { d.Spec.Template.Spec with
                                          Containers :=
                                            { c with Image := "nginx:1.18.0" }
                                              :: others } } } }
    with ⟨res, c2⟩
  cases res <;> simp

/-- C3: when the read of `web/test-golang` gives a workload `d` whose container list
is `c :: others`, the update that `EditImage` submits is a workload `d2` whose
container 0 has image `nginx:1.18.0` and the name, ports and pull policy of `c`,
whose other containers are `others`, and whose metadata (name, namespace, labels),
replica count, selector, template metadata and status are those of `d`. -/
theorem EditImage_changes_only_image (cp : ControlPlane σ) (w : World σ) (cs : Clientset)
    (d : Deployment) (c : Container) (others : List Container)
    (hcfg : k8sConfig cp = .ok cs)
    (hget : cp.DeploymentsGet cs w.cluster "web" "test-golang" = .ok d)
    (hc : d.Spec.Template.Spec.Containers = c :: others) :
    ∃ d2 c2,
      (EditImage cp w).2.calls =
        w.calls ++ [.DeploymentsGet "web" "test-golang", .DeploymentsUpdate "web" d2] ∧
      d2.Spec.Template.Spec.Containers = c2 :: others ∧
      c2.Image = "nginx:1.18.0" ∧ c2.Name = c.Name ∧ c2.Ports = c.Ports ∧
      c2.ImagePullPolicy = c.ImagePullPolicy ∧
      d2.Spec.Replicas = d.Spec.Replicas ∧ d2.Labels = d.Labels ∧
      d2.Spec.Selector = d.Spec.Selector ∧ d2.Name = d.Name ∧
      d2.Namespace = d.Namespace ∧
      d2.Spec.Template.toObjectMeta = d.Spec.Template.toObjectMeta ∧
      d2.Status = d.Status :=
  ⟨_, _, (EditImage_calls cp w cs d c others hcfg hget hc).1,
    rfl, rfl, rfl, rfl, rfl, rfl, rfl, rfl, rfl, rfl, rfl, rfl⟩

/-- Witness of C3: the demonstration workload in the store model. -/
theorem EditImage_changes_only_image_witness :
    ∃ d2 c2,
      (EditImage storePlane (World.start demoStore)).2.calls =
        (World.start demoStore).calls ++
          [.DeploymentsGet "web" "test-golang", .DeploymentsUpdate "web" d2] ∧
      d2.Spec.Template.Spec.Containers = c2 :: [] ∧
      c2.Image = "nginx:1.18.0" ∧ c2.Name = "test" ∧
      c2.Ports = [{ Name := "http", ContainerPort := 80, Protocol := .ProtocolTCP }] ∧
      c2.ImagePullPolicy = .PullIfNotPresent ∧
      d2.Spec.Replicas = CreateDeployment.object.Spec.Replicas ∧
      d2.Labels = CreateDeployment.object.Labels ∧
      d2.Spec.Selector = CreateDeployment.object.Spec.Selector ∧
      d2.Name = CreateDeployment.object.Name ∧
      d2.Namespace = CreateDeployment.object.Namespace ∧
      d2.Spec.Template.toObjectMeta = CreateDeployment.object.Spec.Template.toObjectMeta ∧
      d2.Status = CreateDeployment.object.Status :=
  EditImage_changes_only_image storePlane (World.start demoStore)
    { config := { Host := "https://127.0.0.1:6443" } } CreateDeployment.object
    { Name := "test", Image := "nginx:1.16.1", ImagePullPolicy := .PullIfNotPresent,
      Ports := [{ Name := "http", ContainerPort := 80, Protocol := .ProtocolTCP }] } []
    rfl rfl rfl

/-- The slice built by the loop of `GetNamespace` holds the names in listing order. -/
theorem names_foldl (items : List Namespace) (init : List String) :
    items.foldl (fun namesapces ns => namesapces ++ [ns.Name]) init =
      init ++ items.map (fun ns => ns.Name) := by
  induction items generalizing init with
  | nil => simp
  | cons x xs ih => simp [ih]

/-- The inner loop of `GetDeployment` prints one entry per listed deployment, in
order, and does nothing else. -/
theorem entries_foldl (items : List Deployment) (w : World σ) :
    items.foldl
        (fun w2 deployment =>
          w2.printf "namespace:%s name:%s\n"
            [.str deployment.Namespace, .str deployment.Name]) w =
      { cluster := w.cluster, calls := w.calls,
        stdout := w.stdout ++ items.map GetDeployment.entry } := by
  induction items generalizing w with
  | nil => simp
  | cons x xs ih =>
    rw [List.foldl_cons, ih]
    simp [World.printf, GetDeployment.entry]

/-- The loop of `GetDeployment` over namespaces whose listings all succeed. -/
theorem loop_all_ok (cp : ControlPlane σ) (cs : Clientset) (lists : String → List Deployment)
    (hcfg : k8sConfig cp = .ok cs) (names : List String) (w : World σ)
    (hok : ∀ n ∈ names, cp.DeploymentsList cs w.cluster n = .ok (lists n)) :
    GetDeployment.loop cp names w =
      (.ok (),
        { cluster := w.cluster,
          calls := w.calls ++ names.map Call.DeploymentsList,
          stdout := w.stdout ++
            names.flatMap (fun n => (lists n).map GetDeployment.entry) }) := by
  induction names generalizing w with
  | nil => simp [GetDeployment.loop]
  | cons n rest ih =>
    have hn := hok n (List.mem_cons_self _ _)
    simp only [GetDeployment.loop, hcfg, hn, entries_foldl]
    rw [ih]
    · simp
    · intro m hm
      exact hok m (List.mem_cons_of_mem _ hm)

/-- The loop of `GetDeployment` when the listings of `pre` succeed and the listing of
`bad` fails: it stops at `bad`. -/
theorem loop_first_failure (cp : ControlPlane σ) (cs : Clientset)
    (lists : String → List Deployment) (hcfg : k8sConfig cp = .ok cs)
    (pre : List String) (bad : String) (post : List String) (err : Err) (w : World σ)
    (hok : ∀ n ∈ pre, cp.DeploymentsList cs w.cluster n = .ok (lists n))
    (hbad : cp.DeploymentsList cs w.cluster bad = .error err) :
    GetDeployment.loop cp (pre ++ bad :: post) w =
      (.error (.fatal err),
        { cluster := w.cluster,
          calls := w.calls ++ pre.map Call.DeploymentsList ++ [Call.DeploymentsList bad],
          stdout := w.stdout ++
            pre.flatMap (fun n => (lists n).map GetDeployment.entry) }) := by
  induction pre generalizing w with
  | nil => simp [GetDeployment.loop, hcfg, hbad, World.request]
  | cons n rest ih =>
    have hn := hok n (List.mem_cons_self _ _)
    rw [List.cons_append, GetDeployment.loop]
    simp only [hcfg, hn, entries_foldl]
    rw [ih]
    · simp
    · intro m hm
      exact hok m (List.mem_cons_of_mem _ hm)
    · exact hbad

/-- The function `GetNamespace` when the namespace listing succeeds. -/
theorem GetNamespace_ok (cp : ControlPlane σ) (w : World σ) (cs : Clientset)
    (nss : List Namespace) (hcfg : k8sConfig cp = .ok cs)
    (hns : cp.NamespacesList cs w.cluster = .ok nss) :
    GetNamespace cp w = (.ok (nss.map (fun ns => ns.Name)), w.request .NamespacesList) := by
  simp [GetNamespace, hcfg, hns, names_foldl]

/-- C4: when the namespace listing returns `nss` and the workload listing of every
one of them succeeds, `GetNamespace` returns the names of `nss` in listing order,
`GetDeployment` returns normally and what it prints is exactly the concatenation, in
the order of `nss`, of one entry (namespace, name) per workload of the listing of
each of them, in listing order; an entry is printed if and only if it is the entry
of a workload returned by the listing of one of the namespaces of `nss`. -/
theorem GetDeployment_emits_every_listing (cp : ControlPlane σ) (w : World σ)
    (cs : Clientset) (nss : List Namespace) (lists : String → List Deployment)
    (hcfg : k8sConfig cp = .ok cs)
    (hns : cp.NamespacesList cs w.cluster = .ok nss)
    (hok : ∀ ns ∈ nss, cp.DeploymentsList cs w.cluster ns.Name = .ok (lists ns.Name)) :
    (GetNamespace cp w).1 = .ok (nss.map (fun ns => ns.Name)) ∧
      (GetDeployment cp w).1 = .ok () ∧
      (GetDeployment cp w).2.stdout =
        w.stdout ++ nss.flatMap (fun ns => (lists ns.Name).map GetDeployment.entry) ∧
      ∀ p, p ∈ (GetDeployment cp w).2.stdout.drop w.stdout.length ↔
        ∃ ns ∈ nss, ∃ d ∈ lists ns.Name, p = GetDeployment.entry d := by
  have hN := GetNamespace_ok cp w cs nss hcfg hns
  have hL := loop_all_ok cp cs lists hcfg (nss.map (fun ns => ns.Name))
    (w.request .NamespacesList)
    (by
      intro n hn
      obtain ⟨ns, hmem, rfl⟩ := List.mem_map.1 hn
      exact hok ns hmem)
  have hG : GetDeployment cp w = GetDeployment.loop cp (nss.map (fun ns => ns.Name))
      (w.request .NamespacesList) := by
    simp [GetDeployment, hN]
  have hout : (GetDeployment cp w).2.stdout =
      w.stdout ++ nss.flatMap (fun ns => (lists ns.Name).map GetDeployment.entry) := by
    rw [hG, hL]
    simp [List.flatMap_map, Function.comp_def]
  refine ⟨by rw [hN], by rw [hG, hL], hout, ?_⟩
  intro p
  rw [hout]
  simp only [List.drop_left, List.mem_flatMap, List.mem_map]
  constructor
  · rintro ⟨ns, hn, d, hd, rfl⟩
    exact ⟨ns, hn, d, hd, rfl⟩
  · rintro ⟨ns, hn, d, hd, rfl⟩
    exact ⟨ns, hn, d, hd, rfl⟩

/-- Witness of C4: the store model holding the demonstration workload, whose
namespaces are `web` and `kube-system`; the one entry printed is `web/test-golang`. -/
theorem GetDeployment_emits_every_listing_witness :
    storePlane.NamespacesList { config := { Host := "https://127.0.0.1:6443" } }
        (World.start demoStore).cluster =
        .ok [Namespace.named "web", Namespace.named "kube-system"] ∧
      ((GetNamespace storePlane (World.start demoStore)).1 = .ok ["web", "kube-system"] ∧
        (GetDeployment storePlane (World.start demoStore)).1 = .ok () ∧
        (GetDeployment storePlane (World.start demoStore)).2.stdout =
          [⟨"namespace:%s name:%s\n", [.str "web", .str "test-golang"]⟩] ∧
        ∀ p, p ∈ (GetDeployment storePlane (World.start demoStore)).2.stdout.drop
              (World.start demoStore).stdout.length ↔
          ∃ ns ∈ [Namespace.named "web", Namespace.named "kube-system"],
            ∃ d ∈ demoStore.deployments.filter (fun d => decide (d.Namespace = ns.Name)),
              p = GetDeployment.entry d) :=
  ⟨rfl, GetDeployment_emits_every_listing storePlane (World.start demoStore)
    { config := { Host := "https://127.0.0.1:6443" } }
    [Namespace.named "web", Namespace.named "kube-system"]
    (fun n => demoStore.deployments.filter (fun d => decide (d.Namespace = n)))
    rfl rfl (fun _ _ => rfl)⟩

/-- C5, as stated, fails: with the namespaces `web` and `kube-system`, the workload
`web/test-golang` and a failing listing of `kube-system`, `GetDeployment` ends in
`log.Fatal`, and the entry of `web/test-golang`, listed before the failure, has been
printed. -/
theorem GetDeployment_partial_output :
    faultyPlane.NamespacesList { config := { Host := "https://127.0.0.1:6443" } } demoStore =
        .ok [Namespace.named "web", Namespace.named "kube-system"] ∧
      faultyPlane.DeploymentsList { config := { Host := "https://127.0.0.1:6443" } } demoStore
          "kube-system" = .error (.Other "connection refused") ∧
      (GetDeployment faultyPlane (World.start demoStore)).1 =
        .error (.fatal (.Other "connection refused")) ∧
      (GetDeployment faultyPlane (World.start demoStore)).2.stdout =
        [⟨"namespace:%s name:%s\n", [.str "web", .str "test-golang"]⟩] ∧
      (GetDeployment faultyPlane (World.start demoStore)).2.stdout ≠
        (World.start demoStore).stdout := by
  refine ⟨rfl, rfl, rfl, rfl, ?_⟩
  decide

/-- C5, amended: when the listings of the namespaces `pre` succeed and the listing of
the next namespace `bad` fails with `err`, `GetDeployment` ends in `log.Fatal(err)`;
it has printed exactly the entries of the listings of `pre`, it has issued
the namespace listing, the listings of `pre` and of `bad` and no listing of a
later namespace, and the cluster state is untouched. -/
theorem GetDeployment_fails_at_first_error (cp : ControlPlane σ) (w : World σ)
    (cs : Clientset) (pre : List Namespace) (bad : Namespace) (post : List Namespace)
    (lists : String → List Deployment) (err : Err)
    (hcfg : k8sConfig cp = .ok cs)
    (hns : cp.NamespacesList cs w.cluster = .ok (pre ++ bad :: post))
    (hok : ∀ ns ∈ pre, cp.DeploymentsList cs w.cluster ns.Name = .ok (lists ns.Name))
    (hbad : cp.DeploymentsList cs w.cluster bad.Name = .error err) :
    (GetDeployment cp w).1 = .error (.fatal err) ∧
      (GetDeployment cp w).2.stdout =
        w.stdout ++ pre.flatMap (fun ns => (lists ns.Name).map GetDeployment.entry) ∧
      (GetDeployment cp w).2.calls =
        w.calls ++ [Call.NamespacesList] ++
          pre.map (fun ns => Call.DeploymentsList ns.Name) ++
          [Call.DeploymentsList bad.Name] ∧
      (GetDeployment cp w).2.cluster = w.cluster := by
  have hN := GetNamespace_ok cp w cs _ hcfg hns
  have hG : GetDeployment cp w =
      GetDeployment.loop cp
        (pre.map (fun ns => ns.Name) ++ bad.Name :: post.map (fun ns => ns.Name))
        (w.request .NamespacesList) := by
    simp [GetDeployment, hN]
  have hL := loop_first_failure cp cs lists hcfg (pre.map (fun ns => ns.Name)) bad.Name
    (post.map (fun ns => ns.Name)) err (w.request .NamespacesList)
    (by
      intro n hn
      obtain ⟨ns, hmem, rfl⟩ := List.mem_map.1 hn
      exact hok ns hmem)
    hbad
  rw [hG, hL]
  simp [List.flatMap_map, Function.comp_def]

/-- Witness of the amended C5: the failing listing of `kube-system` after `web`. -/
theorem GetDeployment_fails_at_first_error_witness :
    (GetDeployment faultyPlane (World.start demoStore)).1 =
        .error (.fatal (.Other "connection refused")) ∧
      (GetDeployment faultyPlane (World.start demoStore)).2.stdout =
        (World.start demoStore).stdout ++
          [Namespace.named "web"].flatMap (fun ns =>
            (demoStore.deployments.filter (fun d => decide (d.Namespace = ns.Name))).map
              GetDeployment.entry) ∧
      (GetDeployment faultyPlane (World.start demoStore)).2.calls =
        (World.start demoStore).calls ++ [Call.NamespacesList] ++
          [Namespace.named "web"].map (fun ns => Call.DeploymentsList ns.Name) ++
          [Call.DeploymentsList (Namespace.named "kube-system").Name] ∧
      (GetDeployment faultyPlane (World.start demoStore)).2.cluster =
        (World.start demoStore).cluster :=
  GetDeployment_fails_at_first_error faultyPlane (World.start demoStore)
    { config := { Host := "https://127.0.0.1:6443" } } [Namespace.named "web"]
    (Namespace.named "kube-system") []
    (fun n => demoStore.deployments.filter (fun d => decide (d.Namespace = n)))
    (.Other "connection refused") rfl rfl
    (by
      intro ns hns
      rw [List.mem_singleton.1 hns]
      rfl)
    rfl

/-- A stored workload found under (namespace, name) carries that namespace and name. -/
theorem findDeployment_key (s : Store) (ns name : String) (d : Deployment)
    (h : s.findDeployment ns name = some d) : d.Namespace = ns ∧ d.Name = name := by
  have := List.find?_some h
  simpa using this

/-- After an overwrite of a present key, the key holds the new entry. -/
theorem find_replace (ns name : String) (new : Deployment) (hns : new.Namespace = ns)
    (hname : new.Name = name) (l : List Deployment)
    (h : (l.find? (fun d => decide (d.Namespace = ns ∧ d.Name = name))).isSome) :
    (Store.replace ns name new l).find? (fun d => decide (d.Namespace = ns ∧ d.Name = name)) =
      some new := by
  induction l with
  | nil => simp at h
  | cons x xs ih =>
    by_cases hx : x.Namespace = ns ∧ x.Name = name
    · simp [Store.replace, hx, hns, hname]
    · have hx2 : ¬ (x.Namespace = ns ∧ x.Name = name) := hx
      simp only [Store.replace, if_neg hx2]
      rw [List.find?_cons_of_neg _ (by simpa using hx)]
      apply ih
      rw [List.find?_cons_of_neg _ (by simpa using hx)] at h
      exact h

/-- After the append of an entry under an absent key, the key holds that entry. -/
theorem find_append_new (ns name : String) (new : Deployment) (hns : new.Namespace = ns)
    (hname : new.Name = name) (l : List Deployment)
    (h : l.find? (fun d => decide (d.Namespace = ns ∧ d.Name = name)) = none) :
    (l ++ [new]).find? (fun d => decide (d.Namespace = ns ∧ d.Name = name)) = some new := by
  rw [List.find?_append, h]
  simp [hns, hname]

/-- The store model: one `EditDeployment` on a present workload with a set replica
count returns normally and stores the workload with the new count; nothing else of
the store changes. -/
theorem EditDeployment_store (w : World Store) (d : Deployment) (r : Int)
    (hfind : w.cluster.findDeployment "web" "test-golang" = some d)
    (hr : d.Spec.Replicas = some r) :
    (EditDeployment storePlane w).1 = .ok () ∧
      (EditDeployment storePlane w).2.cluster =
        { w.cluster with
          deployments := Store.replace "web" "test-golang"
            { d with Spec := { d.Spec with Replicas := some (EditDeployment.replicas r) } }
            w.cluster.deployments } ∧
      (EditDeployment storePlane w).2.cluster.findDeployment "web" "test-golang" =
        some { d with Spec := { d.Spec with Replicas := some (EditDeployment.replicas r) } } := by
  obtain ⟨hdns, hdname⟩ := findDeployment_key _ _ _ _ hfind
  have hcfg : k8sConfig storePlane = .ok { config := { Host := "https://127.0.0.1:6443" } } :=
    rfl
  have hstep : EditDeployment storePlane w =
      (.ok (), (((w.request (.DeploymentsGet "web" "test-golang")).request
        (.DeploymentsUpdate "web"
          { d with Spec := { d.Spec with Replicas := some (EditDeployment.replicas r) } })).setCluster
        { w.cluster with
          deployments := Store.replace "web" "test-golang"
            { d with Spec := { d.Spec with Replicas := some (EditDeployment.replicas r) } }
            w.cluster.deployments }).printf
        "deployment : %s ,replocas=%d update success!\n"
        [.str "test-golang", .int (EditDeployment.replicas r)]) := by
    simp only [EditDeployment, hcfg, Int32ptr]
    simp [storePlane, hfind, hr, hdns, hdname]
  rw [hstep]
  refine ⟨rfl, rfl, ?_⟩
  simp only [World.printf_cluster, World.setCluster_cluster, Store.findDeployment]
  have hpresent : w.cluster.deployments.find?
      (fun d => decide (d.Namespace = "web" ∧ d.Name = "test-golang")) = some d := hfind
  exact find_replace "web" "test-golang"
    { d with Spec := { d.Spec with Replicas := some (EditDeployment.replicas r) } }
    hdns hdname w.cluster.deployments (by rw [hpresent]; rfl)

/-- The store model: one `EditDeployment` maps the stored replica count `r` to
`EditDeployment.replicas r`. -/
theorem EditDeployment_store_replicas (w : World Store) (r : Int)
    (hr : Store.replicas w.cluster = some r) :
    (EditDeployment storePlane w).1 = .ok () ∧
      Store.replicas (EditDeployment storePlane w).2.cluster =
        some (EditDeployment.replicas r) := by
  unfold Store.replicas at hr
  obtain ⟨d, hfind, hd⟩ := Option.bind_eq_some.1 hr
  obtain ⟨hok, -, hnew⟩ := EditDeployment_store w d r hfind hd
  refine ⟨hok, ?_⟩
  unfold Store.replicas
  rw [hnew]
  rfl

/-- The sequence of runs: run `n + 1` is one more `EditDeployment` after run `n`. -/
theorem times_succ_replicas (w : World Store) (n : Nat) (v : Int)
    (hok : (EditDeployment.times storePlane n w).1 = .ok ())
    (hv : Store.replicas (EditDeployment.times storePlane n w).2.cluster = some v) :
    (EditDeployment.times storePlane (n + 1) w).1 = .ok () ∧
      Store.replicas (EditDeployment.times storePlane (n + 1) w).2.cluster =
        some (EditDeployment.replicas v) := by
  have hstep : EditDeployment.times storePlane (n + 1) w =
      EditDeployment storePlane (EditDeployment.times storePlane n w).2 := by
    rw [EditDeployment.times]
    rcases hres : EditDeployment.times storePlane n w with ⟨res, w1⟩
    rw [hres] at hok
    simp only at hok
    subst hok
    rfl
  rw [hstep]
  exact EditDeployment_store_replicas _ v hv

/-- Invariant of the repeated runs from a count `r ≥ 1`: every run returns, the
count stays between 1 and `max r 3`, it is at most `max 3 (r - n)` after `n` runs
and at least 2 after the first run. -/
theorem times_invariant (w : World Store) (r : Int)
    (hr : Store.replicas w.cluster = some r) (h1 : 1 ≤ r) (h32 : isInt32 r) (n : Nat) :
    (EditDeployment.times storePlane n w).1 = .ok () ∧
      ∃ v, Store.replicas (EditDeployment.times storePlane n w).2.cluster = some v ∧
        1 ≤ v ∧ v ≤ max r 3 ∧ v ≤ max 3 (r - n) ∧ (1 ≤ n → 2 ≤ v) := by
  induction n with
  | zero =>
    refine ⟨rfl, r, hr, h1, le_max_left _ _, ?_, ?_⟩
    · simp
    · intro h; omega
  | succ n ih =>
    obtain ⟨hok, v, hv, hv1, hvmax, hvdec, -⟩ := ih
    obtain ⟨hok2, hv2⟩ := times_succ_replicas w n v hok hv
    have hv32 : isInt32 v := by
      unfold isInt32 at *
      rcases le_max_iff.1 hvmax with h | h <;> omega
    refine ⟨hok2, _, hv2, ?_⟩
    rw [replicas_exact v hv32]
    push_cast
    refine ⟨?_, ?_, ?_, fun _ => ?_⟩ <;> split <;> omega

/-- C2: in the store model, from a stored replica count `r ≥ 1`, repeated runs of
`EditDeployment` (each reading the count the previous one wrote) all return, never
leave the count 0 nor a count above `max r 3`, and from some run `N` on the count is
2 or 3 and alternates: 2 is followed by 3 and 3 by 2. -/
theorem EditDeployment_oscillates (w : World Store) (r : Int)
    (hr : Store.replicas w.cluster = some r) (h1 : 1 ≤ r) (h32 : isInt32 r) :
    (∀ n, (EditDeployment.times storePlane n w).1 = .ok () ∧
        ∃ v, Store.replicas (EditDeployment.times storePlane n w).2.cluster = some v ∧
          v ≠ 0 ∧ v ≤ max r 3) ∧
      ∃ N, ∀ n, N ≤ n →
        (Store.replicas (EditDeployment.times storePlane n w).2.cluster = some 2 ∧
          Store.replicas (EditDeployment.times storePlane (n + 1) w).2.cluster = some 3) ∨
        (Store.replicas (EditDeployment.times storePlane n w).2.cluster = some 3 ∧
          Store.replicas (EditDeployment.times storePlane (n + 1) w).2.cluster = some 2) := by
  constructor
  · intro n
    obtain ⟨hok, v, hv, hv1, hvmax, -, -⟩ := times_invariant w r hr h1 h32 n
    exact ⟨hok, v, hv, by omega, hvmax⟩
  · refine ⟨r.toNat, fun n hn => ?_⟩
    obtain ⟨hok, v, hv, hv1, -, hvdec, hv2⟩ := times_invariant w r hr h1 h32 n
    obtain ⟨-, hnext⟩ := times_succ_replicas w n v hok hv
    have hn1 : 1 ≤ n := by omega
    have h2 := hv2 hn1
    have h3 : v ≤ 3 := by
      rcases le_max_iff.1 hvdec with h | h <;> omega
    have hcases : v = 2 ∨ v = 3 := by omega
    rcases hcases with h | h
    · left
      subst h
      exact ⟨hv, hnext⟩
    · right
      subst h
      exact ⟨hv, hnext⟩

/-- Witness of C2: the demonstration workload (2 replicas). -/
theorem EditDeployment_oscillates_witness :
    Store.replicas (World.start demoStore).cluster = some 2 ∧
      ((∀ n, (EditDeployment.times storePlane n (World.start demoStore)).1 = .ok () ∧
          ∃ v, Store.replicas
              (EditDeployment.times storePlane n (World.start demoStore)).2.cluster = some v ∧
            v ≠ 0 ∧ v ≤ max 2 3) ∧
        ∃ N, ∀ n, N ≤ n →
          (Store.replicas
              (EditDeployment.times storePlane n (World.start demoStore)).2.cluster = some 2 ∧
            Store.replicas
              (EditDeployment.times storePlane (n + 1) (World.start demoStore)).2.cluster =
                some 3) ∨
          (Store.replicas
              (EditDeployment.times storePlane n (World.start demoStore)).2.cluster = some 3 ∧
            Store.replicas
              (EditDeployment.times storePlane (n + 1) (World.start demoStore)).2.cluster =
                some 2)) :=
  ⟨rfl, EditDeployment_oscillates (World.start demoStore) 2 rfl (by decide) (by decide)⟩

/-- C7, as stated, fails: in the store model with the demonstration workload
(2 replicas) one `EditDeployment` leaves 3 replicas and two in a row leave 2. -/
theorem EditDeployment_twice_differs :
    Store.replicas (World.start demoStore).cluster = some 2 ∧
      Store.replicas (EditDeployment storePlane (World.start demoStore)).2.cluster = some 3 ∧
      Store.replicas (andThen (EditDeployment storePlane) (EditDeployment storePlane)
        (World.start demoStore)).2.cluster = some 2 ∧
      Store.replicas (andThen (EditDeployment storePlane) (EditDeployment storePlane)
          (World.start demoStore)).2.cluster ≠
        Store.replicas (EditDeployment storePlane (World.start demoStore)).2.cluster := by
  refine ⟨rfl, rfl, rfl, ?_⟩
  decide

/-- A second call runs on the world the first one left when the first returns. -/
theorem andThen_ok (f g : World σ → Except Halt Unit × World σ) (w : World σ)
    (h : (f w).1 = .ok ()) : andThen f g w = g (f w).2 := by
  unfold andThen
  rcases hres : f w with ⟨res, w1⟩
  rw [hres] at h
  simp only at h
  subst h
  rfl

/-- C7, amended: in the store model, for a stored `int32` replica count `r`, one
`EditDeployment` and two in a row both return, and the count left by two differs by
exactly 1 from the count left by one (the mutation is not idempotent); when `r` is 2
or 3 the second run restores `r`. -/
theorem EditDeployment_twice_steps_again (w : World Store) (r : Int)
    (hr : Store.replicas w.cluster = some r) (h32 : isInt32 r) :
    ∃ v1 v2,
      (EditDeployment storePlane w).1 = .ok () ∧
      Store.replicas (EditDeployment storePlane w).2.cluster = some v1 ∧
      (andThen (EditDeployment storePlane) (EditDeployment storePlane) w).1 = .ok () ∧
      Store.replicas
        (andThen (EditDeployment storePlane) (EditDeployment storePlane) w).2.cluster =
          some v2 ∧
      v2 ≠ v1 ∧ (v2 = v1 + 1 ∨ v2 = v1 - 1) ∧ (r = 2 ∨ r = 3 → v2 = r) := by
  obtain ⟨hok1, hv1⟩ := EditDeployment_store_replicas w r hr
  obtain ⟨hok2, hv2⟩ := EditDeployment_store_replicas _ _ hv1
  rw [← andThen_ok (EditDeployment storePlane) (EditDeployment storePlane) w hok1] at hok2 hv2
  refine ⟨_, _, hok1, hv1, hok2, hv2, ?_⟩
  have h32b := replicas_isInt32 r h32
  rw [replicas_exact _ h32b]
  rw [replicas_exact r h32]
  unfold isInt32 at h32
  refine ⟨?_, ?_, ?_⟩ <;> split <;> split <;> omega

/-- Witness of the amended C7: the demonstration workload (2 replicas). -/
theorem EditDeployment_twice_steps_again_witness :
    ∃ v1 v2,
      (EditDeployment storePlane (World.start demoStore)).1 = .ok () ∧
      Store.replicas (EditDeployment storePlane (World.start demoStore)).2.cluster = some v1 ∧
      (andThen (EditDeployment storePlane) (EditDeployment storePlane)
        (World.start demoStore)).1 = .ok () ∧
      Store.replicas
        (andThen (EditDeployment storePlane) (EditDeployment storePlane)
          (World.start demoStore)).2.cluster = some v2 ∧
      v2 ≠ v1 ∧ (v2 = v1 + 1 ∨ v2 = v1 - 1) ∧ ((2 : Int) = 2 ∨ (2 : Int) = 3 → v2 = 2) :=
  EditDeployment_twice_steps_again (World.start demoStore) 2 rfl (by decide)

/-- The store model: `CreateDeployment` on a store without `web/test-golang` returns
normally and appends the workload literal to the stored workloads. -/
theorem CreateDeployment_store (w : World Store)
    (habsent : w.cluster.findDeployment "web" "test-golang" = none) :
    (CreateDeployment storePlane w).1 = .ok () ∧
      (CreateDeployment storePlane w).2.cluster =
        { w.cluster with deployments := w.cluster.deployments ++ [CreateDeployment.object] } ∧
      (CreateDeployment storePlane w).2.cluster.findDeployment "web" "test-golang" =
        some CreateDeployment.object := by
  have hcfg : k8sConfig storePlane = .ok { config := { Host := "https://127.0.0.1:6443" } } :=
    rfl
  have hname : CreateDeployment.object.Name = "test-golang" := rfl
  have hns : CreateDeployment.object.Namespace = "web" := rfl
  have hstep : CreateDeployment storePlane w =
      (.ok (), ((w.request (.DeploymentsCreate "web" CreateDeployment.object)).setCluster
        { w.cluster with
          deployments := w.cluster.deployments ++ [CreateDeployment.object] }).printf
        "deployment Create success!\n%v\n" [.status CreateDeployment.object.Status]) := by
    simp only [CreateDeployment, hcfg]
    simp [storePlane, hname, hns, habsent]
  rw [hstep]
  refine ⟨rfl, rfl, ?_⟩
  exact find_append_new "web" "test-golang" CreateDeployment.object rfl rfl
    w.cluster.deployments habsent

/-- The store model: `EditImage` on a present workload with container list
`c :: others` returns normally and stores the workload with the image of container 0
replaced; nothing else of the store changes. -/
theorem EditImage_store (w : World Store) (d : Deployment) (c : Container)
    (others : List Container)
    (hfind : w.cluster.findDeployment "web" "test-golang" = some d)
    (hc : d.Spec.Template.Spec.Containers = c :: others) :
    (EditImage storePlane w).1 = .ok () ∧
      (EditImage storePlane w).2.cluster.services = w.cluster.services ∧
      (EditImage storePlane w).2.cluster.findDeployment "web" "test-golang" =
        some { d with
               Spec := { d.Spec with
                         Template := { d.Spec.Template with
                                       Spec := { d.Spec.Template.Spec with
                                                 Containers :=
                                                   { c with Image := "nginx:1.18.0" }
                                                     :: others } } } } := by
  obtain ⟨hdns, hdname⟩ := findDeployment_key _ _ _ _ hfind
  have hcfg : k8sConfig storePlane = .ok { config := { Host := "https://127.0.0.1:6443" } } :=
    rfl
  have hstep : EditImage storePlane w =
      (.ok (), (((w.request (.DeploymentsGet "web" "test-golang")).request
        (.DeploymentsUpdate "web"
          { d with
            Spec := { d.Spec with
                      Template := { d.Spec.Template with
                                    Spec := { d.Spec.Template.Spec with
                                              Containers :=
                                                { c with Image := "nginx:1.18.0" }
                                                  :: others } } } })).setCluster
        { w.cluster with
          deployments := Store.replace "web" "test-golang"
            { d with
              Spec := { d.Spec with
                        Template := { d.Spec.Template with
                                      Spec := { d.Spec.Template.Spec with
                                                Containers :=
                                                  { c with Image := "nginx:1.18.0" }
                                                    :: others } } } }
            w.cluster.deployments }).printf
        "deployment : %s image update success!\n" [.str "test-golang"]) := by
    simp only [EditImage, hcfg]
    simp [storePlane, hfind, hc, hdns, hdname]
  rw [hstep]
  refine ⟨rfl, rfl, ?_⟩
  have hpresent : w.cluster.deployments.find?
      (fun d => decide (d.Namespace = "web" ∧ d.Name = "test-golang")) = some d := hfind
  exact find_replace "web" "test-golang"
    { d with
      Spec := { d.Spec with
                Template := { d.Spec.Template with
                              Spec := { d.Spec.Template.Spec with
                                        Containers :=
                                          { c with Image := "nginx:1.18.0" }
                                            :: others } } } }
    hdns hdname w.cluster.deployments (by rw [hpresent]; rfl)

/-- The store model: `CreateSvc` on a store without `web/go-nginx-svc` returns
normally, appends the service literal and leaves the workloads as they were. -/
theorem CreateSvc_store (w : World Store)
    (habsent : w.cluster.findService "web" "go-nginx-svc" = none) :
    (CreateSvc storePlane w).1 = .ok () ∧
      (CreateSvc storePlane w).2.cluster.deployments = w.cluster.deployments ∧
      (CreateSvc storePlane w).2.cluster.findService "web" "go-nginx-svc" =
        some CreateSvc.object := by
  have hcfg : k8sConfig storePlane = .ok { config := { Host := "https://127.0.0.1:6443" } } :=
    rfl
  have hname : CreateSvc.object.Name = "go-nginx-svc" := rfl
  have hns : CreateSvc.object.Namespace = "web" := rfl
  have hstep : CreateSvc storePlane w =
      (.ok (), ((w.request (.ServicesCreate "web" CreateSvc.object)).setCluster
        { w.cluster with services := w.cluster.services ++ [CreateSvc.object] }).printf
        "svc: %s create success!\n" [.str "go-nginx-svc"]) := by
    simp only [CreateSvc, hcfg]
    simp [storePlane, hname, hns, habsent]
  rw [hstep]
  refine ⟨rfl, rfl, ?_⟩
  have habs : w.cluster.services.find?
      (fun x => decide (x.Namespace = "web" ∧ x.Name = "go-nginx-svc")) = none := habsent
  simp only [World.printf_cluster, World.setCluster_cluster, Store.findService]
  rw [List.find?_append, habs]
  rfl

/-- C6: in the store model, from any store without workload `web/test-golang` and
without service `web/go-nginx-svc`: `CreateDeployment` returns and the stored
workload has 2 replicas and container 0 image `nginx:1.16.1`; one `EditDeployment`
after it returns and the replicas are 3; `EditImage` after that returns, container 0
has image `nginx:1.18.0` and the replicas are still 3; `CreateSvc` after that returns
and the service `web/go-nginx-svc` is stored with type node-port, selector
`app=test-golang` and the port `http` 80/TCP with node port 6110. -/
theorem end_to_end_scenario (w : World Store)
    (hd : w.cluster.findDeployment "web" "test-golang" = none)
    (hs : w.cluster.findService "web" "go-nginx-svc" = none) :
    ((CreateDeployment storePlane w).1 = .ok () ∧
        Store.replicas (CreateDeployment storePlane w).2.cluster = some 2 ∧
        Store.image (CreateDeployment storePlane w).2.cluster = some "nginx:1.16.1") ∧
      ((andThen (CreateDeployment storePlane) (EditDeployment storePlane) w).1 = .ok () ∧
        Store.replicas
          (andThen (CreateDeployment storePlane) (EditDeployment storePlane) w).2.cluster =
            some 3) ∧
      ((andThen (andThen (CreateDeployment storePlane) (EditDeployment storePlane))
          (EditImage storePlane) w).1 = .ok () ∧
        Store.image
          (andThen (andThen (CreateDeployment storePlane) (EditDeployment storePlane))
            (EditImage storePlane) w).2.cluster = some "nginx:1.18.0" ∧
        Store.replicas
          (andThen (andThen (CreateDeployment storePlane) (EditDeployment storePlane))
            (EditImage storePlane) w).2.cluster = some 3) ∧
      ((andThen (andThen (andThen (CreateDeployment storePlane) (EditDeployment storePlane))
          (EditImage storePlane)) (CreateSvc storePlane) w).1 = .ok () ∧
        ∃ svc,
          (andThen (andThen (andThen (CreateDeployment storePlane)
              (EditDeployment storePlane)) (EditImage storePlane))
            (CreateSvc storePlane) w).2.cluster.findService "web" "go-nginx-svc" = some svc ∧
          svc.Spec.Type_ = .ServiceTypeNodePort ∧
          svc.Spec.Selector = [("app", "test-golang")] ∧
          ({ Name := "http", Port := 80, Protocol := .ProtocolTCP, NodePort := 6110 } :
            ServicePort) ∈ svc.Spec.Ports) := by
  obtain ⟨ok1, c1, f1⟩ := CreateDeployment_store w hd
  have s1 : (CreateDeployment storePlane w).2.cluster.findService "web" "go-nginx-svc" =
      none := by
    rw [c1]; exact hs
  have e2 := andThen_ok (CreateDeployment storePlane) (EditDeployment storePlane) w ok1
  obtain ⟨ok2, c2, f2⟩ :=
    EditDeployment_store (CreateDeployment storePlane w).2 CreateDeployment.object 2 f1 rfl
  have s2 : (EditDeployment storePlane (CreateDeployment storePlane w).2).2.cluster.findService
      "web" "go-nginx-svc" = none := by
    rw [c2]; exact s1
  rw [← e2] at ok2 f2 s2
  have e3 := andThen_ok (andThen (CreateDeployment storePlane) (EditDeployment storePlane))
    (EditImage storePlane) w ok2
  obtain ⟨ok3, sv3, f3⟩ := EditImage_store _ _
    { Name := "test", Image := "nginx:1.16.1", ImagePullPolicy := .PullIfNotPresent,
      Ports := [{ Name := "http", ContainerPort := 80, Protocol := .ProtocolTCP }] } [] f2 rfl
  have s3 : (EditImage storePlane
      (andThen (CreateDeployment storePlane) (EditDeployment storePlane) w).2).2.cluster.findService
      "web" "go-nginx-svc" = none := by
    unfold Store.findService at s2 ⊢
    rw [sv3]; exact s2
  rw [← e3] at ok3 f3 s3
  have e4 := andThen_ok (andThen (andThen (CreateDeployment storePlane)
    (EditDeployment storePlane)) (EditImage storePlane)) (CreateSvc storePlane) w ok3
  obtain ⟨ok4, -, f4⟩ := CreateSvc_store _ s3
  rw [← e4] at ok4 f4
  refine ⟨⟨ok1, ?_, ?_⟩, ⟨ok2, ?_⟩, ⟨ok3, ?_, ?_⟩, ok4, CreateSvc.object, f4, rfl, rfl, ?_⟩
  · unfold Store.replicas; rw [f1]; rfl
  · unfold Store.image; rw [f1]; rfl
  · unfold Store.replicas; rw [f2]; rfl
  · unfold Store.image; rw [f3]; rfl
  · unfold Store.replicas; rw [f3]; rfl
  · simp [CreateSvc.object]

/-- Witness of C6: the store with the namespaces `web` and `kube-system` and no
resource. -/
theorem end_to_end_scenario_witness :
    (World.start emptyStore).cluster.findDeployment "web" "test-golang" = none ∧
      (World.start emptyStore).cluster.findService "web" "go-nginx-svc" = none ∧
      Store.replicas
        (andThen (andThen (CreateDeployment storePlane) (EditDeployment storePlane))
          (EditImage storePlane) (World.start emptyStore)).2.cluster = some 3 ∧
      (andThen (andThen (andThen (CreateDeployment storePlane) (EditDeployment storePlane))
        (EditImage storePlane)) (CreateSvc storePlane) (World.start emptyStore)).1 = .ok () :=
  ⟨rfl, rfl,
    (end_to_end_scenario (World.start emptyStore) rfl rfl).2.2.1.2.2,
    (end_to_end_scenario (World.start emptyStore) rfl rfl).2.2.2.1⟩

end

end K8sClient
